import Mathlib

/-!
Shallow embedding of `src/app.py`, a single-page Streamlit script that reads
an HF_TOKEN credential, renders generation-parameter widgets, calls a remote
text-generation service and displays the normalized response or an error.

The embedding models:
* Python values relevant to response normalization (`PyVal`);
* the response-normalization block (app.py lines 104-120);
* the generate-button handler (lines 69-148), with the outcomes of the
  remote-client constructions and of the text-generation call supplied as
  oracle parameters (`Except Exc _`), and the Streamlit display calls and
  outbound network calls recorded as explicit event / call traces;
* the startup token resolution (lines 20-28);
* the sidebar widgets (lines 31-55), whose bound-enforcing behaviour lives
  in the Streamlit library and is therefore modelled from the spec.
-/

namespace HFApp

/-- A Python exception as its handler observes it: `type(e).__name__` and
`str(e)`. -/
structure Exc where
  typeName : String
  message : String
deriving Repr, DecidableEq

mutual

/-- The Python values the response-normalization code distinguishes:
a `str`, a `dict` (an association list of string keys, unique in any value
produced by a real `dict`), or any other object carried together with its
`str()` rendering. -/
inductive PyVal where
  | pstr : String → PyVal
  | pdict : PyEntries → PyVal
  | pother : String → PyVal

/-- The entries of a Python dict, in insertion order. -/
inductive PyEntries where
  | nil : PyEntries
  | cons : String → PyVal → PyEntries → PyEntries

end

mutual

/-- Python `repr` of a value, as used by `str` on a `dict`. Opaque objects
carry their rendering in the `pother` constructor. -/
def pyRepr : PyVal → String
  | .pstr s => "\x27" ++ s ++ "\x27"
  | .pdict kvs => "\x7b" ++ String.intercalate ", " (reprEntries kvs) ++ "\x7d"
  | .pother r => r

/-- The `repr` renderings of a dict's entries, in order. -/
def reprEntries : PyEntries → List String
  | .nil => []
  | .cons k v rest => ("\x27" ++ k ++ "\x27: " ++ pyRepr v) :: reprEntries rest

end

/-- Python `str` of a value. On a `str` it is the identity; on a `dict` it
is the `repr` rendering; on anything else the carried rendering. -/
def pyStr : PyVal → String
  | .pstr s => s
  | .pdict kvs => pyRepr (.pdict kvs)
  | .pother r => r

/-- `'key' in d` / `d['key']` on a Python dict, modelled as first-match
lookup (keys of a real dict are unique). -/
def lookupKey : PyEntries → String → Option PyVal
  | .nil, _ => none
  | .cons k v rest, key => if k = key then some v else lookupKey rest key

/-- Outcome of the normalization block: the value bound to `result` and
whether the unexpected-format warning (line 118) was emitted. -/
structure NormOutcome where
  result : PyVal
  formatWarning : Bool

/-- app.py lines 104-120: normalize the heterogeneous response shapes. -/
def normalizeResponse (response : PyVal) : NormOutcome :=
  match response with
  | .pstr s => ⟨.pstr s, false⟩
  | .pdict kvs =>
      match lookupKey kvs "generated_text" with
      | some v => ⟨v, false⟩
      | none =>
        match lookupKey kvs "text" with
        | some v => ⟨v, false⟩
        | none =>
          match lookupKey kvs "content" with
          | some v => ⟨v, false⟩
          | none => ⟨.pstr (pyStr (.pdict kvs)), true⟩
  | .pother r => ⟨.pstr (pyStr (.pother r)), false⟩

/-- Python whitespace characters stripped by `str.strip()` (ASCII range). -/
def pyIsSpace (c : Char) : Bool :=
  c = ' ' || c = '\t' || c = '\n' || c = '\r' || c = '\x0b' || c = '\x0c'

/-- Python `str.strip()`: remove leading and trailing whitespace. -/
def pyStrip (s : String) : String :=
  String.mk (((s.toList.dropWhile pyIsSpace).reverse.dropWhile pyIsSpace).reverse)

/-- One Streamlit display call, recorded as emitted on the user-visible
display surface. `writeVal` is `st.write` applied to a non-string Python
value (the `result` of normalization); `expanderWrite` is the debug panel
of lines 143-148 with its label and content. -/
inductive Event where
  | write : String → Event
  | writeVal : PyVal → Event
  | warning : String → Event
  | error : String → Event
  | successMsg : String → Event
  | infoMsg : String → Event
  | subheader : String → Event
  | markdown : String → Event
  | expanderWrite : String → String → Event

/-- One outbound interaction with the remote service, with the arguments
the script passes: the probe construction `InferenceClient(model, token)`
(line 85), the real construction `InferenceClient(provider, api_key)`
(lines 91-94), and `client.text_generation(prompt, model=..,
max_new_tokens=.., temperature=..)` (lines 97-102). -/
inductive NetCall where
  | constructDirect : String → String → NetCall
  | constructProvider : String → String → NetCall
  | textGeneration : String → String → Int → Rat → NetCall
deriving Repr, DecidableEq

/-- Result of running the body of the `try` block: display events emitted,
network calls issued, and the exception that escaped the body, if any. -/
structure RunOut where
  events : List Event
  calls : List NetCall
  exc : Option Exc

/-- Result of one press of the generate button: display events, network
calls, and the exception that escaped the whole handler, if any.
`except Exception` (line 139) catches every modelled exception, so the
handler always leaves `uncaught = none`. -/
structure SessionOut where
  events : List Event
  calls : List NetCall
  uncaught : Option Exc

/-- app.py lines 76-80: the four debug `st.write` calls. -/
def debugEvents (hf_token model : String) : List Event :=
  [ .write "🔍 **Debug Info:**"
  , .write ("- Token starts with: " ++ hf_token.take 10 ++ "...")
  , .write ("- Token length: " ++ toString hf_token.length)
  , .write ("- Model: " ++ model)
  , .write "- Provider: featherless-ai" ]

/-- app.py lines 83-88: the inner try/except around the test-probe client
construction, which logs success or the caught exception's message. -/
def probeEvents (outcome : Except Exc Unit) : List Event :=
  match outcome with
  | .ok _ => [.successMsg "✅ Direct HF access successful"]
  | .error e => [.warning ("⚠️ Direct HF access failed: " ++ e.message)]

/-- app.py lines 118 and 122-137: the optional unexpected-format warning
followed by the success banner and the two result/settings columns. -/
def displayResult (model : String) (max_tokens : Int) (temperature : Rat)
    (norm : NormOutcome) : List Event :=
  (if norm.formatWarning then
    [Event.warning "⚠️ Unexpected response format. Showing raw response."]
   else []) ++
  [ .successMsg "✅ Generation completed!"
  , .subheader "Generated Text", .markdown "---", .writeVal norm.result
  , .subheader "Settings Used", .markdown "---"
  , .write ("**Model:** " ++ model)
  , .write ("**Max Tokens:** " ++ toString max_tokens)
  , .write ("**Temperature:** " ++ toString temperature) ]

/-- app.py lines 91-120 plus the display block: construct the real client,
issue the generation call, normalize and display. The outcomes of the two
remote interactions are the oracle parameters `providerConstruct` and
`textGen`. -/
def coreRun (providerConstruct : Except Exc Unit) (textGen : Except Exc PyVal)
    (hf_token user_query model : String) (max_tokens : Int)
    (temperature : Rat) : RunOut :=
  match providerConstruct with
  | .error e => ⟨[], [.constructProvider "featherless-ai" hf_token], some e⟩
  | .ok _ =>
    match textGen with
    | .error e =>
        ⟨[], [.constructProvider "featherless-ai" hf_token,
              .textGeneration user_query model max_tokens temperature], some e⟩
    | .ok response =>
        ⟨displayResult model max_tokens temperature (normalizeResponse response),
         [.constructProvider "featherless-ai" hf_token,
          .textGeneration user_query model max_tokens temperature], none⟩

/-- app.py lines 74-137: the whole `try` body — debug writes, the
best-effort probe (whose construction call is always issued and whose
exception is swallowed by the inner except), then the core run. -/
def tryBody (directConstruct providerConstruct : Except Exc Unit)
    (textGen : Except Exc PyVal) (hf_token user_query model : String)
    (max_tokens : Int) (temperature : Rat) : RunOut :=
  let core := coreRun providerConstruct textGen hf_token user_query model
      max_tokens temperature
  ⟨debugEvents hf_token model ++ probeEvents directConstruct ++ core.events,
   .constructDirect model hf_token :: core.calls,
   core.exc⟩

/-- app.py lines 139-148: the outer `except Exception` clause — error
banner carrying the exception's type name and message, plus the debug
expander panel. -/
def excClauseEvents (model : String) (e : Exc) : List Event :=
  [ .error ("❌ Error: " ++ e.typeName ++ ": " ++ e.message)
  , .expanderWrite "🔍 Debug Information"
      ("**Error Type:** " ++ e.typeName ++ "\n**Error Message:** "
        ++ e.message ++ "\n**Model:** " ++ model
        ++ "\n**Provider:** featherless-ai") ]

/-- app.py lines 69-148: one press of the generate button. A blank (after
stripping) query yields only the local warning; otherwise the `try` body
runs and any exception escaping it is consumed by the `except Exception`
clause, so `uncaught` is always `none`. -/
def generateHandler (directConstruct providerConstruct : Except Exc Unit)
    (textGen : Except Exc PyVal) (hf_token user_query model : String)
    (max_tokens : Int) (temperature : Rat) : SessionOut :=
  if pyStrip user_query = "" then
    ⟨[.warning "⚠️ Please enter a query before generating."], [], none⟩
  else
    let run := tryBody directConstruct providerConstruct textGen hf_token
        user_query model max_tokens temperature
    match run.exc with
    | none => ⟨run.events, run.calls, none⟩
    | some e => ⟨run.events ++ excClauseEvents model e, run.calls, none⟩

/-- The same handler with the test-probe block (app.py lines 82-88)
removed: the program variant the spec says an implementer may write. Note
that it never consults `directConstruct`. -/
def generateHandlerNoProbe (providerConstruct : Except Exc Unit)
    (textGen : Except Exc PyVal) (hf_token user_query model : String)
    (max_tokens : Int) (temperature : Rat) : SessionOut :=
  if pyStrip user_query = "" then
    ⟨[.warning "⚠️ Please enter a query before generating."], [], none⟩
  else
    let core := coreRun providerConstruct textGen hf_token user_query model
        max_tokens temperature
    let run : RunOut :=
      ⟨debugEvents hf_token model ++ core.events, core.calls, core.exc⟩
    match run.exc with
    | none => ⟨run.events, run.calls, none⟩
    | some e => ⟨run.events ++ excClauseEvents model e, run.calls, none⟩

/-- Outcome of the `st.secrets["HF_TOKEN"]` lookup (app.py line 21): a
value, or one of the two exception types the `except` clause on line 22
catches. -/
inductive SecretsOutcome where
  | value : String → SecretsOutcome
  | keyError : SecretsOutcome
  | fileNotFoundError : SecretsOutcome
deriving Repr, DecidableEq

/-- app.py lines 20-23: the layered token lookup — the secrets store
first, and the `HF_TOKEN` environment variable (`os.environ.get`, `none`
when unset) only when the secrets lookup raises. -/
def resolveToken (secrets : SecretsOutcome) (envToken : Option String) :
    Option String :=
  match secrets with
  | .value s => some s
  | .keyError => envToken
  | .fileNotFoundError => envToken

/-- Python truthiness of `hf_token` on line 25: `None` and `""` are falsy. -/
def pyTruthy (token : Option String) : Bool :=
  match token with
  | none => false
  | some s => s ≠ ""

/-- app.py lines 20-28: resolve the token; when it is missing or empty,
emit the error banner and the remediation info message and halt
(`st.stop()`), returning no token for the rest of the script. -/
def startup (secrets : SecretsOutcome) (envToken : Option String) :
    List Event × Option String :=
  let token := resolveToken secrets envToken
  if pyTruthy token then ⟨[], token⟩
  else
    ⟨[ .error "❌ HF_TOKEN not found. Please configure it in Streamlit secrets or environment variables."
     , .infoMsg "For deployment, add your token to the Streamlit Community Cloud secrets."],
     none⟩

/-- Modelled from the spec: the Streamlit integer stepper
(`st.number_input`, app.py lines 38-45) shows the default when the user
has not touched it and otherwise enforces its `min_value`/`max_value`
bounds on the user's entry; the widget code itself lives in the Streamlit
library, outside this repository. -/
def st_number_input (lo hi default : Int) (user : Option Int) : Int :=
  match user with
  | none => default
  | some v => max lo (min hi v)

/-- Modelled from the spec: the Streamlit float slider (`st.slider`,
app.py lines 48-55) shows the default when untouched and otherwise yields
`min_value` plus a whole number of steps, never beyond `max_value`; the
widget code itself lives in the Streamlit library, outside this
repository. -/
def st_slider (lo hi default step : Rat) (user : Option Nat) : Rat :=
  match user with
  | none => default
  | some k => min hi (lo + k * step)

/-- Modelled from the spec: the Streamlit selectbox (`st.selectbox`,
app.py lines 31-35) returns the option at the selected index; the widget
code itself lives in the Streamlit library, outside this repository. -/
def st_selectbox (options : List String) (index : Nat) : String :=
  options.getD index ""

/-- One whole session: startup token resolution followed — only when a
token was resolved — by the sidebar widgets and one press of the generate
button. `maxTokensInput` / `temperatureInput` are the user's widget
interactions (`none` = untouched). -/
def session (secrets : SecretsOutcome) (envToken : Option String)
    (directConstruct providerConstruct : Except Exc Unit)
    (textGen : Except Exc PyVal) (user_query : String)
    (maxTokensInput : Option Int) (temperatureInput : Option Nat) :
    SessionOut :=
  match startup secrets envToken with
  | (evs, none) => ⟨evs, [], none⟩
  | (evs, some hf_token) =>
      let model := st_selectbox ["marcelbinz/Llama-3.1-Centaur-70B"] 0
      let max_tokens := st_number_input 1 2000 70 maxTokensInput
      let temperature := st_slider 0 2 (7/10) (1/100) temperatureInput
      let h := generateHandler directConstruct providerConstruct textGen
          hf_token user_query model max_tokens temperature
      ⟨evs ++ h.events, h.calls, h.uncaught⟩

/-! Helper lemmas shared by the claim theorems. -/

/-- The probe's failure warning (line 88) can never collide with the
unexpected-format warning (line 118): the two strings differ at their
fourth character whatever the exception message is. -/
theorem probeWarning_ne_formatWarning (msg : String) :
    "⚠️ Direct HF access failed: " ++ msg
      ≠ "⚠️ Unexpected response format. Showing raw response." := by
  intro h
  have h2 : ("⚠️ Direct HF access failed: " ++ msg).data
      = ("⚠️ Unexpected response format. Showing raw response." : String).data :=
    congrArg String.data h
  rw [String.data_append] at h2
  have h3 := congrArg (fun l => l[3]?) h2
  simp [List.getElem?_append] at h3

/-- The handler consumes every exception its body raises: `uncaught` is
`none` on every run. -/
theorem generateHandler_uncaught_none (d pc : Except Exc Unit)
    (tg : Except Exc PyVal) (hf q m : String) (mt : Int) (tmp : Rat) :
    (generateHandler d pc tg hf q m mt tmp).uncaught = none := by
  unfold generateHandler
  split
  · rfl
  · cases h : (tryBody d pc tg hf q m mt tmp).exc <;> simp [h]

/-- A concrete mapping response carrying all three known keys, used to
exercise the priority order. -/
def kvsAllKeys : PyEntries :=
  .cons "content" (.pstr "c") (.cons "text" (.pstr "t")
    (.cons "generated_text" (.pstr "g") .nil))

/-- A concrete mapping response carrying only `text` and `content`. -/
def kvsTextContent : PyEntries :=
  .cons "content" (.pstr "c") (.cons "text" (.pstr "t") .nil)

example : normalizeResponse (.pstr "Hi there") = ⟨.pstr "Hi there", false⟩ := rfl
example : normalizeResponse (.pdict (.cons "text" (.pstr "Hi there") .nil))
    = ⟨.pstr "Hi there", false⟩ := rfl
example : normalizeResponse (.pdict (.cons "foo" (.pstr "bar") .nil))
    = ⟨.pstr "\x7b\x27foo\x27: \x27bar\x27\x7d", true⟩ := rfl
example : pyStrip "  \t\n " = "" := rfl
example : pyStrip " hi " = "hi" := rfl

/-- C1: every exception raised by the real remote-client construction or
by the text-generation call is caught by the outer `except Exception`
clause and surfaces as an error banner whose message contains both the
exception's type name and its message text; the handler consumes the
exception (`uncaught = none`), so it never propagates out and crashes the
session. -/
theorem generate_exceptions_caught (d pc : Except Exc Unit)
    (tg : Except Exc PyVal) (hf q m : String) (mt : Int) (tmp : Rat)
    (e : Exc) (hq : ¬ pyStrip q = "")
    (he : pc = .error e ∨ (pc = .ok () ∧ tg = .error e)) :
    (∃ msg, Event.error msg ∈ (generateHandler d pc tg hf q m mt tmp).events
      ∧ msg = "❌ Error: " ++ e.typeName ++ ": " ++ e.message)
    ∧ (generateHandler d pc tg hf q m mt tmp).uncaught = none := by
  refine ⟨⟨"❌ Error: " ++ e.typeName ++ ": " ++ e.message, ?_, rfl⟩,
    generateHandler_uncaught_none d pc tg hf q m mt tmp⟩
  rcases he with h | ⟨h1, h2⟩
  · subst h
    simp [generateHandler, tryBody, coreRun, excClauseEvents, hq]
  · subst h1; subst h2
    simp [generateHandler, tryBody, coreRun, excClauseEvents, hq]

/-- Closed instance of C1: a failing generation call on the prompt
"Hello" produces the error banner with the exception's type name and
message, and the handler reports no uncaught exception. -/
theorem generate_exceptions_caught_witness :
    ¬ pyStrip "Hello" = "" ∧
    ((∃ msg, Event.error msg ∈
        (generateHandler (.ok ()) (.ok ())
          (.error ⟨"HfHubHTTPError", "401 Unauthorized"⟩)
          "hf_secrettoken" "Hello" "marcelbinz/Llama-3.1-Centaur-70B" 70
          (7/10)).events
      ∧ msg = "❌ Error: " ++ "HfHubHTTPError" ++ ": " ++ "401 Unauthorized")
    ∧ (generateHandler (.ok ()) (.ok ())
        (.error ⟨"HfHubHTTPError", "401 Unauthorized"⟩)
        "hf_secrettoken" "Hello" "marcelbinz/Llama-3.1-Centaur-70B" 70
        (7/10)).uncaught = none) :=
  ⟨by decide,
   generate_exceptions_caught (.ok ()) (.ok ())
     (.error ⟨"HfHubHTTPError", "401 Unauthorized"⟩)
     "hf_secrettoken" "Hello" "marcelbinz/Llama-3.1-Centaur-70B" 70 (7/10)
     ⟨"HfHubHTTPError", "401 Unauthorized"⟩ (by decide) (.inr ⟨rfl, rfl⟩)⟩

/-- C2: a blank or whitespace-only prompt yields exactly the local
warning, no network calls at all, and no exception; the output is a
constant, independent of every remote outcome. -/
theorem blank_prompt_no_network (d pc : Except Exc Unit)
    (tg : Except Exc PyVal) (hf q m : String) (mt : Int) (tmp : Rat)
    (h : pyStrip q = "") :
    generateHandler d pc tg hf q m mt tmp =
      ⟨[.warning "⚠️ Please enter a query before generating."], [], none⟩ := by
  simp [generateHandler, h]

/-- Closed instance of C2: a whitespace-only prompt produces only the
warning and an empty network-call trace. -/
theorem blank_prompt_no_network_witness :
    pyStrip " \t\n " = "" ∧
    generateHandler (.ok ()) (.ok ()) (.ok (.pstr "Hi there")) "tok"
        " \t\n " "marcelbinz/Llama-3.1-Centaur-70B" 70 (7/10) =
      ⟨[.warning "⚠️ Please enter a query before generating."], [], none⟩ :=
  ⟨by decide,
   blank_prompt_no_network (.ok ()) (.ok ()) (.ok (.pstr "Hi there")) "tok"
     " \t\n " "marcelbinz/Llama-3.1-Centaur-70B" 70 (7/10) (by decide)⟩

/-- C3: the normalization block probes a mapping response for the known
keys in the fixed order `generated_text`, `text`, `content`: a present
`generated_text` wins outright, `text` is consulted only when
`generated_text` is absent, and `content` only when both are absent. -/
theorem dict_key_priority (kvs : PyEntries) :
    (∀ v, lookupKey kvs "generated_text" = some v →
        normalizeResponse (.pdict kvs) = ⟨v, false⟩) ∧
    (lookupKey kvs "generated_text" = none →
      ∀ v, lookupKey kvs "text" = some v →
        normalizeResponse (.pdict kvs) = ⟨v, false⟩) ∧
    (lookupKey kvs "generated_text" = none →
      lookupKey kvs "text" = none →
      ∀ v, lookupKey kvs "content" = some v →
        normalizeResponse (.pdict kvs) = ⟨v, false⟩) := by
  refine ⟨?_, ?_, ?_⟩ <;> intros <;> simp [normalizeResponse, *]

/-- Closed instance of C3: on a mapping carrying all three known keys the
`generated_text` value is returned, and on one carrying `text` and
`content` the `text` value is returned. -/
theorem dict_key_priority_witness :
    (lookupKey kvsAllKeys "generated_text" = some (.pstr "g") ∧
     normalizeResponse (.pdict kvsAllKeys) = ⟨.pstr "g", false⟩) ∧
    (lookupKey kvsTextContent "generated_text" = none ∧
     lookupKey kvsTextContent "text" = some (.pstr "t") ∧
     normalizeResponse (.pdict kvsTextContent) = ⟨.pstr "t", false⟩) :=
  ⟨⟨rfl, (dict_key_priority kvsAllKeys).1 (.pstr "g") rfl⟩,
   ⟨rfl, rfl, (dict_key_priority kvsTextContent).2.1 rfl (.pstr "t") rfl⟩⟩

/-- C4: when the remote call returns a plain string, the handler passes
it through normalization unchanged and displays it as a success: the
exact string is written as the result, the success banner is shown, no
error banner appears, and no exception escapes. -/
theorem string_response_unchanged (d pc : Except Exc Unit)
    (tg : Except Exc PyVal) (hf q m : String) (mt : Int) (tmp : Rat)
    (s : String) (hq : ¬ pyStrip q = "") (hpc : pc = .ok ())
    (htg : tg = .ok (.pstr s)) :
    normalizeResponse (.pstr s) = ⟨.pstr s, false⟩ ∧
    Event.writeVal (.pstr s) ∈ (generateHandler d pc tg hf q m mt tmp).events ∧
    Event.successMsg "✅ Generation completed!"
      ∈ (generateHandler d pc tg hf q m mt tmp).events ∧
    (∀ msg, Event.error msg ∉ (generateHandler d pc tg hf q m mt tmp).events) ∧
    (generateHandler d pc tg hf q m mt tmp).uncaught = none := by
  subst hpc; subst htg
  refine ⟨rfl, ?_, ?_, ?_, generateHandler_uncaught_none _ _ _ _ _ _ _ _⟩ <;>
    [skip; skip; intro msg] <;>
    cases d <;>
    simp [generateHandler, tryBody, coreRun, hq, normalizeResponse,
      displayResult, debugEvents, probeEvents]

/-- Closed instance of C4: the remote string "Hi there" is displayed
verbatim as a success. -/
theorem string_response_unchanged_witness :
    ¬ pyStrip "Hello" = "" ∧
    (normalizeResponse (.pstr "Hi there") = ⟨.pstr "Hi there", false⟩ ∧
     Event.writeVal (.pstr "Hi there") ∈
       (generateHandler (.ok ()) (.ok ()) (.ok (.pstr "Hi there")) "tok"
         "Hello" "marcelbinz/Llama-3.1-Centaur-70B" 70 (7/10)).events ∧
     Event.successMsg "✅ Generation completed!" ∈
       (generateHandler (.ok ()) (.ok ()) (.ok (.pstr "Hi there")) "tok"
         "Hello" "marcelbinz/Llama-3.1-Centaur-70B" 70 (7/10)).events ∧
     (∀ msg, Event.error msg ∉
       (generateHandler (.ok ()) (.ok ()) (.ok (.pstr "Hi there")) "tok"
         "Hello" "marcelbinz/Llama-3.1-Centaur-70B" 70 (7/10)).events) ∧
     (generateHandler (.ok ()) (.ok ()) (.ok (.pstr "Hi there")) "tok"
       "Hello" "marcelbinz/Llama-3.1-Centaur-70B" 70 (7/10)).uncaught = none) :=
  ⟨by decide,
   string_response_unchanged (.ok ()) (.ok ()) (.ok (.pstr "Hi there")) "tok"
     "Hello" "marcelbinz/Llama-3.1-Centaur-70B" 70 (7/10) "Hi there"
     (by decide) rfl rfl⟩

/-- C5: when the remote call returns a mapping with none of the three
known keys, the handler shows the stringified whole mapping as the
result, emits the unexpected-format warning, and still treats the run as
a success — the success banner appears and no error banner does. -/
theorem unknown_keys_degraded_success (d pc : Except Exc Unit)
    (tg : Except Exc PyVal) (hf q m : String) (mt : Int) (tmp : Rat)
    (kvs : PyEntries) (hq : ¬ pyStrip q = "") (hpc : pc = .ok ())
    (htg : tg = .ok (.pdict kvs))
    (h1 : lookupKey kvs "generated_text" = none)
    (h2 : lookupKey kvs "text" = none)
    (h3 : lookupKey kvs "content" = none) :
    normalizeResponse (.pdict kvs) = ⟨.pstr (pyStr (.pdict kvs)), true⟩ ∧
    Event.warning "⚠️ Unexpected response format. Showing raw response."
      ∈ (generateHandler d pc tg hf q m mt tmp).events ∧
    Event.writeVal (.pstr (pyStr (.pdict kvs)))
      ∈ (generateHandler d pc tg hf q m mt tmp).events ∧
    Event.successMsg "✅ Generation completed!"
      ∈ (generateHandler d pc tg hf q m mt tmp).events ∧
    (∀ msg, Event.error msg ∉ (generateHandler d pc tg hf q m mt tmp).events) ∧
    (generateHandler d pc tg hf q m mt tmp).uncaught = none := by
  subst hpc; subst htg
  refine ⟨by simp [normalizeResponse, h1, h2, h3], ?_, ?_, ?_, ?_,
    generateHandler_uncaught_none _ _ _ _ _ _ _ _⟩ <;>
    [skip; skip; skip; intro msg] <;>
    cases d <;>
    simp [generateHandler, tryBody, coreRun, hq, normalizeResponse,
      displayResult, debugEvents, probeEvents, h1, h2, h3]

/-- Closed instance of C5: the mapping `{"foo": "bar"}` is shown
stringified with the format warning, still as a success. -/
theorem unknown_keys_degraded_success_witness :
    ¬ pyStrip "Hello" = "" ∧
    lookupKey (.cons "foo" (.pstr "bar") .nil) "generated_text" = none ∧
    (normalizeResponse (.pdict (.cons "foo" (.pstr "bar") .nil))
      = ⟨.pstr (pyStr (.pdict (.cons "foo" (.pstr "bar") .nil))), true⟩ ∧
     Event.warning "⚠️ Unexpected response format. Showing raw response." ∈
       (generateHandler (.ok ()) (.ok ())
         (.ok (.pdict (.cons "foo" (.pstr "bar") .nil))) "tok" "Hello"
         "marcelbinz/Llama-3.1-Centaur-70B" 70 (7/10)).events ∧
     Event.writeVal (.pstr (pyStr (.pdict (.cons "foo" (.pstr "bar") .nil)))) ∈
       (generateHandler (.ok ()) (.ok ())
         (.ok (.pdict (.cons "foo" (.pstr "bar") .nil))) "tok" "Hello"
         "marcelbinz/Llama-3.1-Centaur-70B" 70 (7/10)).events ∧
     Event.successMsg "✅ Generation completed!" ∈
       (generateHandler (.ok ()) (.ok ())
         (.ok (.pdict (.cons "foo" (.pstr "bar") .nil))) "tok" "Hello"
         "marcelbinz/Llama-3.1-Centaur-70B" 70 (7/10)).events ∧
     (∀ msg, Event.error msg ∉
       (generateHandler (.ok ()) (.ok ())
         (.ok (.pdict (.cons "foo" (.pstr "bar") .nil))) "tok" "Hello"
         "marcelbinz/Llama-3.1-Centaur-70B" 70 (7/10)).events) ∧
     (generateHandler (.ok ()) (.ok ())
       (.ok (.pdict (.cons "foo" (.pstr "bar") .nil))) "tok" "Hello"
       "marcelbinz/Llama-3.1-Centaur-70B" 70 (7/10)).uncaught = none) :=
  ⟨by decide, rfl,
   unknown_keys_degraded_success (.ok ()) (.ok ())
     (.ok (.pdict (.cons "foo" (.pstr "bar") .nil))) "tok" "Hello"
     "marcelbinz/Llama-3.1-Centaur-70B" 70 (7/10)
     (.cons "foo" (.pstr "bar") .nil) (by decide) rfl rfl rfl rfl rfl⟩

/-- C9: when the remote call returns a value that is neither a string nor
a mapping, the handler shows its `str()` rendering as a plain success:
result written, success banner shown, and — unlike the unknown-key
mapping case — no unexpected-format warning, no error banner, no escaping
exception. -/
theorem other_response_plain_success (d pc : Except Exc Unit)
    (tg : Except Exc PyVal) (hf q m : String) (mt : Int) (tmp : Rat)
    (r : String) (hq : ¬ pyStrip q = "") (hpc : pc = .ok ())
    (htg : tg = .ok (.pother r)) :
    normalizeResponse (.pother r) = ⟨.pstr r, false⟩ ∧
    Event.writeVal (.pstr r) ∈ (generateHandler d pc tg hf q m mt tmp).events ∧
    Event.successMsg "✅ Generation completed!"
      ∈ (generateHandler d pc tg hf q m mt tmp).events ∧
    Event.warning "⚠️ Unexpected response format. Showing raw response."
      ∉ (generateHandler d pc tg hf q m mt tmp).events ∧
    (∀ msg, Event.error msg ∉ (generateHandler d pc tg hf q m mt tmp).events) ∧
    (generateHandler d pc tg hf q m mt tmp).uncaught = none := by
  subst hpc; subst htg
  refine ⟨rfl, ?_, ?_, ?_, ?_, generateHandler_uncaught_none _ _ _ _ _ _ _ _⟩
  · cases d <;>
      simp [generateHandler, tryBody, coreRun, hq, normalizeResponse,
        displayResult, debugEvents, probeEvents, pyStr]
  · cases d <;>
      simp [generateHandler, tryBody, coreRun, hq, normalizeResponse,
        displayResult, debugEvents, probeEvents]
  · cases d <;>
      simp [generateHandler, tryBody, coreRun, hq, normalizeResponse,
        displayResult, debugEvents, probeEvents]
    intro h
    exact probeWarning_ne_formatWarning _ h.symm
  · intro msg
    cases d <;>
      simp [generateHandler, tryBody, coreRun, hq, normalizeResponse,
        displayResult, debugEvents, probeEvents]

/-- Closed instance of C9: a list-like response carried as its rendering
"[1, 2]" is shown as a plain success with no format warning. -/
theorem other_response_plain_success_witness :
    ¬ pyStrip "Hello" = "" ∧
    (normalizeResponse (.pother "[1, 2]") = ⟨.pstr "[1, 2]", false⟩ ∧
     Event.writeVal (.pstr "[1, 2]") ∈
       (generateHandler (.ok ()) (.ok ()) (.ok (.pother "[1, 2]")) "tok"
         "Hello" "marcelbinz/Llama-3.1-Centaur-70B" 70 (7/10)).events ∧
     Event.successMsg "✅ Generation completed!" ∈
       (generateHandler (.ok ()) (.ok ()) (.ok (.pother "[1, 2]")) "tok"
         "Hello" "marcelbinz/Llama-3.1-Centaur-70B" 70 (7/10)).events ∧
     Event.warning "⚠️ Unexpected response format. Showing raw response." ∉
       (generateHandler (.ok ()) (.ok ()) (.ok (.pother "[1, 2]")) "tok"
         "Hello" "marcelbinz/Llama-3.1-Centaur-70B" 70 (7/10)).events ∧
     (∀ msg, Event.error msg ∉
       (generateHandler (.ok ()) (.ok ()) (.ok (.pother "[1, 2]")) "tok"
         "Hello" "marcelbinz/Llama-3.1-Centaur-70B" 70 (7/10)).events) ∧
     (generateHandler (.ok ()) (.ok ()) (.ok (.pother "[1, 2]")) "tok"
       "Hello" "marcelbinz/Llama-3.1-Centaur-70B" 70 (7/10)).uncaught = none) :=
  ⟨by decide,
   other_response_plain_success (.ok ()) (.ok ()) (.ok (.pother "[1, 2]"))
     "tok" "Hello" "marcelbinz/Llama-3.1-Centaur-70B" 70 (7/10) "[1, 2]"
     (by decide) rfl rfl⟩

/-- C6: the token is resolved by the layered lookup — the secrets value
when the secrets lookup succeeds, the environment variable only when it
raises — and whenever the resolved token is missing or empty the session
shows the error banner plus the remediation info message, issues no
network call, and stops. -/
theorem token_layered_lookup_halts (secrets : SecretsOutcome)
    (envToken : Option String) :
    (∀ s, resolveToken (.value s) envToken = some s) ∧
    resolveToken .keyError envToken = envToken ∧
    resolveToken .fileNotFoundError envToken = envToken ∧
    (pyTruthy (resolveToken secrets envToken) = false →
      ∀ (d pc : Except Exc Unit) (tg : Except Exc PyVal) (q : String)
        (mti : Option Int) (ti : Option Nat),
        session secrets envToken d pc tg q mti ti =
          ⟨[ .error "❌ HF_TOKEN not found. Please configure it in Streamlit secrets or environment variables."
           , .infoMsg "For deployment, add your token to the Streamlit Community Cloud secrets."],
           [], none⟩) := by
  refine ⟨fun s => rfl, rfl, rfl, fun h d pc tg q mti ti => ?_⟩
  simp [session, startup, h]

/-- Closed instance of C6: secrets raising KeyError and an unset
environment variable halt the session with the error and info messages
and an empty network-call trace. -/
theorem token_layered_lookup_halts_witness :
    pyTruthy (resolveToken .keyError none) = false ∧
    session .keyError none (.ok ()) (.ok ()) (.ok (.pstr "Hi")) "Hello"
        none none =
      ⟨[ .error "❌ HF_TOKEN not found. Please configure it in Streamlit secrets or environment variables."
       , .infoMsg "For deployment, add your token to the Streamlit Community Cloud secrets."],
       [], none⟩ :=
  ⟨by decide,
   (token_layered_lookup_halts .keyError none).2.2.2 (by decide) (.ok ())
     (.ok ()) (.ok (.pstr "Hi")) "Hello" none none⟩

/-- C7: the best-effort probe is transparent: for every probe outcome the
handler's trace is the probe-free handler's trace with only the probe's
own log line and its construction call inserted, and the probe-free
handler never consults the probe outcome at all — so the client
constructed afterwards, the generation call issued, and the returned
result are identical with and without the probe. -/
theorem probe_has_no_observable_effect (d pc : Except Exc Unit)
    (tg : Except Exc PyVal) (hf q m : String) (mt : Int) (tmp : Rat)
    (hq : ¬ pyStrip q = "") :
    ∃ tail,
      (generateHandler d pc tg hf q m mt tmp).events
        = debugEvents hf m ++ (probeEvents d ++ tail) ∧
      (generateHandlerNoProbe pc tg hf q m mt tmp).events
        = debugEvents hf m ++ tail ∧
      (generateHandler d pc tg hf q m mt tmp).calls
        = NetCall.constructDirect m hf
            :: (generateHandlerNoProbe pc tg hf q m mt tmp).calls ∧
      (generateHandler d pc tg hf q m mt tmp).uncaught
        = (generateHandlerNoProbe pc tg hf q m mt tmp).uncaught := by
  refine ⟨(coreRun pc tg hf q m mt tmp).events ++
      (match (coreRun pc tg hf q m mt tmp).exc with
       | none => []
       | some e => excClauseEvents m e), ?_, ?_, ?_, ?_⟩ <;>
    cases h : (coreRun pc tg hf q m mt tmp).exc <;>
      simp [generateHandler, generateHandlerNoProbe, tryBody, hq, h]

/-- Closed instance of C7: with a failing probe and a succeeding
generation call, the trace decomposes as the probe-free trace with the
probe's log line and construction call inserted. -/
theorem probe_has_no_observable_effect_witness :
    ¬ pyStrip "Hello" = "" ∧
    ∃ tail,
      (generateHandler (.error ⟨"HfHubHTTPError", "403"⟩) (.ok ())
          (.ok (.pstr "Hi")) "tok" "Hello" "marcelbinz/Llama-3.1-Centaur-70B"
          70 (7/10)).events
        = debugEvents "tok" "marcelbinz/Llama-3.1-Centaur-70B"
            ++ (probeEvents (.error ⟨"HfHubHTTPError", "403"⟩) ++ tail) ∧
      (generateHandlerNoProbe (.ok ()) (.ok (.pstr "Hi")) "tok" "Hello"
          "marcelbinz/Llama-3.1-Centaur-70B" 70 (7/10)).events
        = debugEvents "tok" "marcelbinz/Llama-3.1-Centaur-70B" ++ tail ∧
      (generateHandler (.error ⟨"HfHubHTTPError", "403"⟩) (.ok ())
          (.ok (.pstr "Hi")) "tok" "Hello" "marcelbinz/Llama-3.1-Centaur-70B"
          70 (7/10)).calls
        = NetCall.constructDirect "marcelbinz/Llama-3.1-Centaur-70B" "tok"
            :: (generateHandlerNoProbe (.ok ()) (.ok (.pstr "Hi")) "tok"
                "Hello" "marcelbinz/Llama-3.1-Centaur-70B" 70 (7/10)).calls ∧
      (generateHandler (.error ⟨"HfHubHTTPError", "403"⟩) (.ok ())
          (.ok (.pstr "Hi")) "tok" "Hello" "marcelbinz/Llama-3.1-Centaur-70B"
          70 (7/10)).uncaught
        = (generateHandlerNoProbe (.ok ()) (.ok (.pstr "Hi")) "tok" "Hello"
            "marcelbinz/Llama-3.1-Centaur-70B" 70 (7/10)).uncaught :=
  ⟨by decide,
   probe_has_no_observable_effect (.error ⟨"HfHubHTTPError", "403"⟩) (.ok ())
     (.ok (.pstr "Hi")) "tok" "Hello" "marcelbinz/Llama-3.1-Centaur-70B" 70
     (7/10) (by decide)⟩

/-- The sidebar stepper as instantiated on lines 38-45 always yields a
value in [1, 2000]. -/
theorem st_number_input_bounds (user : Option Int) :
    1 ≤ st_number_input 1 2000 70 user ∧
      st_number_input 1 2000 70 user ≤ 2000 := by
  cases user <;> simp [st_number_input]

/-- The sidebar slider as instantiated on lines 48-55 always yields a
value in [0, 2]. -/
theorem st_slider_bounds (user : Option Nat) :
    0 ≤ st_slider 0 2 (7/10) (1/100) user ∧
      st_slider 0 2 (7/10) (1/100) user ≤ 2 := by
  cases user with
  | none => norm_num [st_slider]
  | some k =>
      constructor
      · exact le_min (by norm_num) (by positivity)
      · exact min_le_left _ _

/-- Any generation call the handler issues carries exactly the
`max_tokens` and `temperature` values the handler was given. -/
theorem textGen_call_params (d pc : Except Exc Unit) (tg : Except Exc PyVal)
    (hf q m : String) (mt : Int) (tmp : Rat) (p m' : String) (mt' : Int)
    (tmp' : Rat)
    (h : NetCall.textGeneration p m' mt' tmp'
      ∈ (generateHandler d pc tg hf q m mt tmp).calls) :
    mt' = mt ∧ tmp' = tmp := by
  by_cases hq : pyStrip q = ""
  · simp [generateHandler, hq] at h
  · cases pc with
    | error e => simp [generateHandler, tryBody, coreRun, hq] at h
    | ok u =>
        cases tg with
        | error e =>
            simp [generateHandler, tryBody, coreRun, hq] at h
            exact ⟨h.2.2.1, h.2.2.2⟩
        | ok r =>
            simp [generateHandler, tryBody, coreRun, hq] at h
            exact ⟨h.2.2.1, h.2.2.2⟩

/-- C8: every generation request a session issues carries a
max-new-tokens value in [1, 2000] and a temperature in [0, 2], because
the widgets clamp the user's entries to the bounds given on lines 38-55;
the untouched widgets yield the defaults 70 and 0.70. -/
theorem generation_params_in_bounds (secrets : SecretsOutcome)
    (envToken : Option String) (d pc : Except Exc Unit)
    (tg : Except Exc PyVal) (q : String) (mti : Option Int)
    (ti : Option Nat) (p m : String) (mt : Int) (tmp : Rat)
    (h : NetCall.textGeneration p m mt tmp
      ∈ (session secrets envToken d pc tg q mti ti).calls) :
    (1 ≤ mt ∧ mt ≤ 2000) ∧ (0 ≤ tmp ∧ tmp ≤ 2) ∧
    st_number_input 1 2000 70 none = 70 ∧
    st_slider 0 2 (7/10) (1/100) none = 7/10 := by
  unfold session at h
  cases hs : startup secrets envToken with
  | mk evs tok =>
      rw [hs] at h
      cases tok with
      | none => simp at h
      | some hf =>
          simp only at h
          obtain ⟨hmt, htmp⟩ :=
            textGen_call_params _ _ _ _ _ _ _ _ _ _ _ _ h
          subst hmt; subst htmp
          exact ⟨st_number_input_bounds mti, st_slider_bounds ti, rfl, rfl⟩

/-- Closed instance of C8: out-of-range widget entries (100000 tokens,
300 slider steps) are clamped so the issued call carries values inside
the bounds. -/
theorem generation_params_in_bounds_witness :
    NetCall.textGeneration "Hello" "marcelbinz/Llama-3.1-Centaur-70B" 2000 2
      ∈ (session (.value "tok") none (.ok ()) (.ok ()) (.ok (.pstr "Hi"))
          "Hello" (some 100000) (some 300)).calls ∧
    ((1 ≤ (2000 : Int) ∧ (2000 : Int) ≤ 2000) ∧
     (0 ≤ (2 : Rat) ∧ (2 : Rat) ≤ 2) ∧
     st_number_input 1 2000 70 none = 70 ∧
     st_slider 0 2 (7/10) (1/100) none = 7/10) := by
  have hq : ¬ pyStrip "Hello" = "" := by decide
  have hmem : NetCall.textGeneration "Hello" "marcelbinz/Llama-3.1-Centaur-70B"
      2000 2 ∈ (session (.value "tok") none (.ok ()) (.ok ())
        (.ok (.pstr "Hi")) "Hello" (some 100000) (some 300)).calls := by
    simp [session, startup, pyTruthy, resolveToken, st_selectbox,
      st_number_input, st_slider, generateHandler, tryBody, coreRun, hq,
      min_def, max_def]
    norm_num
  exact ⟨hmem,
    generation_params_in_bounds (.value "tok") none (.ok ()) (.ok ())
      (.ok (.pstr "Hi")) "Hello" (some 100000) (some 300) "Hello"
      "marcelbinz/Llama-3.1-Centaur-70B" 2000 2 hmem⟩

/-- Every non-blank run's event trace starts with the four debug writes
of lines 76-80. -/
theorem generateHandler_events_debug (d pc : Except Exc Unit)
    (tg : Except Exc PyVal) (hf q m : String) (mt : Int) (tmp : Rat)
    (hq : ¬ pyStrip q = "") :
    ∃ rest, (generateHandler d pc tg hf q m mt tmp).events
      = debugEvents hf m ++ rest := by
  refine ⟨probeEvents d ++ ((coreRun pc tg hf q m mt tmp).events ++
      (match (coreRun pc tg hf q m mt tmp).exc with
       | none => []
       | some e => excClauseEvents m e)), ?_⟩
  cases h : (coreRun pc tg hf q m mt tmp).exc <;>
    simp [generateHandler, tryBody, hq, h]

/-- C10: on every non-blank submission the handler writes the first ten
characters of the bearer token and the token's length to the display
surface, so the displayed output is not independent of the credential:
two tokens with different ten-character prefixes produce different
traces. -/
theorem debug_writes_token_fragment (d pc : Except Exc Unit)
    (tg : Except Exc PyVal) (hf q m : String) (mt : Int) (tmp : Rat)
    (hq : ¬ pyStrip q = "") :
    Event.write ("- Token starts with: " ++ hf.take 10 ++ "...")
      ∈ (generateHandler d pc tg hf q m mt tmp).events ∧
    Event.write ("- Token length: " ++ toString hf.length)
      ∈ (generateHandler d pc tg hf q m mt tmp).events ∧
    ∀ hf', ¬ hf.take 10 = hf'.take 10 →
      ¬ (generateHandler d pc tg hf q m mt tmp).events
        = (generateHandler d pc tg hf' q m mt tmp).events := by
  obtain ⟨r1, h1⟩ := generateHandler_events_debug d pc tg hf q m mt tmp hq
  refine ⟨?_, ?_, ?_⟩
  · rw [h1]; simp [debugEvents]
  · rw [h1]; simp [debugEvents]
  · intro hf' hne heq
    obtain ⟨r2, h2⟩ := generateHandler_events_debug d pc tg hf' q m mt tmp hq
    rw [h1, h2] at heq
    have hidx := congrArg (fun l => l[1]?) heq
    simp [debugEvents, List.getElem?_append] at hidx
    apply hne
    have hd := congrArg String.data hidx
    simp only [String.data_append] at hd
    have hmid := List.append_cancel_right hd
    have h3 := List.append_cancel_left hmid
    exact String.ext h3

/-- Closed instance of C10: with the token "hf_secrettoken" the trace
contains the prefix write and the length write, and changing the token to
"hf_othertoken" changes the trace. -/
theorem debug_writes_token_fragment_witness :
    ¬ pyStrip "Hello" = "" ∧
    (Event.write ("- Token starts with: "
          ++ ("hf_secrettoken" : String).take 10 ++ "...")
      ∈ (generateHandler (.ok ()) (.ok ()) (.ok (.pstr "Hi"))
          "hf_secrettoken" "Hello" "marcelbinz/Llama-3.1-Centaur-70B" 70
          (7/10)).events ∧
     Event.write ("- Token length: "
          ++ toString ("hf_secrettoken" : String).length)
      ∈ (generateHandler (.ok ()) (.ok ()) (.ok (.pstr "Hi"))
          "hf_secrettoken" "Hello" "marcelbinz/Llama-3.1-Centaur-70B" 70
          (7/10)).events ∧
     ∀ hf', ¬ ("hf_secrettoken" : String).take 10 = hf'.take 10 →
       ¬ (generateHandler (.ok ()) (.ok ()) (.ok (.pstr "Hi"))
            "hf_secrettoken" "Hello" "marcelbinz/Llama-3.1-Centaur-70B" 70
            (7/10)).events
         = (generateHandler (.ok ()) (.ok ()) (.ok (.pstr "Hi")) hf'
            "Hello" "marcelbinz/Llama-3.1-Centaur-70B" 70 (7/10)).events) :=
  ⟨by decide,
   debug_writes_token_fragment (.ok ()) (.ok ()) (.ok (.pstr "Hi"))
     "hf_secrettoken" "Hello" "marcelbinz/Llama-3.1-Centaur-70B" 70 (7/10)
     (by decide)⟩

end HFApp
